import Mathlib

/-!
# Verification of the push_dash resolve (cache-or-compute) subsystem

Shallow embedding of `backend/services/resolver.py`, the query-dialect
adapter of `backend/db.py`, the dataset configuration of
`backend/dataset_config.py`, and the resumable bulk runner of
`backend/cli_tool/bulk_process.py`.

Modelling conventions:
* A JSON value is represented by its canonical serialization
  (`Json.text`).  Python's `json.dumps` / `json.loads` are modelled as
  the canonical (de)serialization, under which `loads (dumps j) = j`
  for every JSON-serializable value.
* The database is modelled semantically: the raw table of a dataset is
  a partial map from record id to the row's `description` column (the
  only column `FunctionResolver.resolve` reads, via
  `SELECT description FROM <dataset>_raw WHERE <key_field> = ?`),
  and each cache table is a list of rows `(key, payload, created_at)`.
  `INSERT OR REPLACE` deletes any row with a conflicting primary key
  and appends the fresh row, matching SQLite's semantics (and the
  rewritten `ON CONFLICT DO UPDATE` on PostgreSQL).
* The possibility of a backend failure during the cache write of
  `_store_result` is an oracle argument `storeFails`; when it is true
  the underlying `db.execute` raises, which `_store_result` catches,
  returning `False` (the state is unchanged).
* The compute functions bound in `FunctionResolver.__init__` are the
  mock AI generators of `services/mock_ai.py`; their payload content
  is an explicit non-goal of the specification, so `resolve` is
  parameterized by the function map while the map's key structure
  (dataset names, function names, key fields) is embedded concretely.
* `datetime.utcnow()` is an oracle argument `now`.
* `clear_cache` is modelled per backend (`Backend.postgres` /
  `Backend.sqlite`): reading `cursor.rowcount` yields the affected-row
  count off the `_PGCursorResult` the client/server path synthesizes,
  but raises `AttributeError` on the embedded path, whose raw APSW
  cursor has no `rowcount` attribute — after the `DELETE` already ran.
-/

/-- A JSON value, represented by its canonical serialized text. -/
structure Json where
  text : String
deriving DecidableEq, Repr

/-- Python `json.dumps` on a JSON-serializable value (canonical form). -/
def json_dumps (j : Json) : String := j.text

/-- Python `json.loads` of a canonical serialization. -/
def json_loads (s : String) : Json := ⟨s⟩

/-- One row of a per-(dataset, function) cache table:
`(key_field, payload, created_at)` — `payload` holds the serialized
JSON text exactly as written by `_store_result`. -/
structure CacheRow where
  key : String
  payload : String
  created_at : String
deriving DecidableEq, Repr

/-- Semantic database state: `raw dataset id` is the `description`
column of the raw row for `id` in `<dataset>_raw` (or `none` when no
row exists), and `cache table` is the list of rows of cache table
`table`. -/
structure DBState where
  raw : String → String → Option String
  cache : String → List CacheRow

/-- Replace the contents of one cache table. -/
def DBState.setTable (st : DBState) (table : String) (rows : List CacheRow) : DBState :=
  { st with cache := fun t => if t = table then rows else st.cache t }

/-- Number of rows of a cache table holding the given key. -/
def countKey (rows : List CacheRow) (id : String) : Nat :=
  (rows.filter (fun r => r.key == id)).length

/-- Result of invoking a compute function: the payload it returns, or
the message of the exception it raised. -/
inductive ComputeResult where
  | ok (payload : Json)
  | error (msg : String)
deriving DecidableEq, Repr

/-- A compute function takes the record id and the description string
and produces a payload or raises. -/
abbrev ComputeFn := String → String → ComputeResult

/-- The resolver's `function_map`: dataset name ↦ ordered association
list of function name ↦ compute function. -/
abbrev FuncMap := List (String × List (String × ComputeFn))

namespace FunctionResolver

/-- `self.key_fields` of `FunctionResolver.__init__`
(resolver.py lines 48–53), verbatim. -/
def key_fields : List (String × String) :=
  [("controls", "control_id"),
   ("external_loss", "ext_loss_id"),
   ("internal_loss", "loss_id"),
   ("issues", "issue_id")]

/-- The key structure of `self.function_map` of
`FunctionResolver.__init__` (resolver.py lines 20–45): dataset name ↦
its ordered function names.  The bound values are the mock AI
generators, whose content is out of the model's scope. -/
def function_map_names : List (String × List String) :=
  [("controls", ["ai_taxonomy", "ai_root_causes", "ai_enrichment", "similar_controls"]),
   ("external_loss", ["ai_taxonomy", "ai_root_causes", "ai_enrichment", "similar_external_loss"]),
   ("internal_loss", ["ai_taxonomy", "ai_root_causes", "ai_enrichment", "similar_internal_loss"]),
   ("issues", ["ai_taxonomy", "ai_root_causes", "ai_enrichment", "similar_issues"])]

/-- `FunctionResolver._get_cached_result` (resolver.py lines 129–155):
`SELECT payload, created_at FROM <table> WHERE <key_field> = ?`,
returning the decoded payload and the stored timestamp on a hit.
The `key_field` argument only names the primary-key column inside the
generated SQL; rows are keyed by that single column in the model. -/
def get_cached_result (st : DBState) (table key_field id : String) :
    Option (Json × String) :=
  match (st.cache table).find? (fun r => r.key == id) with
  | some row => some (json_loads row.payload, row.created_at)
  | none => none

/-- SQLite `INSERT OR REPLACE` on a table whose primary key is the row
key: every conflicting row is deleted and the fresh row inserted. -/
def insert_or_replace_rows (rows : List CacheRow) (row : CacheRow) : List CacheRow :=
  rows.filter (fun r => !(r.key == row.key)) ++ [row]

/-- `FunctionResolver._store_result` (resolver.py lines 157–188):
`INSERT OR REPLACE INTO <table> (<key_field>, payload, created_at)
VALUES (?, ?, ?)` wrapped in `try/except`; on a backend failure
(`storeFails`) the exception is caught, logged and `False` returned —
the caller only sees the boolean. -/
def store_result (st : DBState) (table key_field id : String) (payload : Json)
    (created_at : String) (storeFails : Bool) : Bool × DBState :=
  if storeFails then
    (false, st)
  else
    (true, st.setTable table
      (insert_or_replace_rows (st.cache table) ⟨id, json_dumps payload, created_at⟩))

/-- The successful return value of `resolve`: the dictionary
`{status, source, payload, created_at}`. -/
structure ResolveOk where
  status : String
  source : String
  payload : Json
  created_at : String
deriving DecidableEq, Repr

/-- The error outcomes of `resolve`: the two `ValueError`s raised for
an invalid dataset / function, the `ValueError` raised for a missing
record, and the `RuntimeError` wrapping a compute failure. -/
inductive ResolveErr where
  | invalidDataset (msg : String)
  | invalidFunction (msg : String)
  | notFound (msg : String)
  | computeFailure (msg : String)
deriving DecidableEq, Repr

/-- Either outcome of `resolve`. -/
inductive RResult where
  | ok (r : ResolveOk)
  | err (e : ResolveErr)
deriving DecidableEq, Repr

/-- Everything observable about one `resolve` call: its
return-or-raise outcome, the database state after the call, and how
many times the compute function was invoked during the call. -/
structure ResolveOutcome where
  result : RResult
  state : DBState
  computeCalls : Nat

/-- `FunctionResolver.resolve` (resolver.py lines 55–127), step by
step: validate dataset and function against `function_map`, read
`key_fields[dataset]`, check the raw row exists (`NotFound`
otherwise), default the description from the raw row, check the cache
unless `refresh`, and otherwise compute, stamp with `now`
(`datetime.utcnow`), store via `_store_result` (whose boolean result
is discarded by the source) and return the computed payload. -/
def resolve (fm : FuncMap) (st : DBState) (dataset func id : String)
    (description : Option String) (refresh : Bool) (now : String)
    (storeFails : Bool) : ResolveOutcome :=
  match List.lookup dataset fm with
  | none => ⟨.err (.invalidDataset ("Invalid dataset: " ++ dataset)), st, 0⟩
  | some funcs =>
    match List.lookup func funcs with
    | none =>
      ⟨.err (.invalidFunction
        ("Invalid function " ++ func ++ " for dataset " ++ dataset)), st, 0⟩
    | some compute_func =>
      let key_field := (List.lookup dataset key_fields).getD ""
      match st.raw dataset id with
      | none => ⟨.err (.notFound ("ID " ++ id ++ " not found in " ++ dataset)), st, 0⟩
      | some raw_description =>
        let descr := description.getD raw_description
        let table_name := dataset ++ "_" ++ func
        match (if refresh then none else get_cached_result st table_name key_field id) with
        | some hit => ⟨.ok ⟨"ok", "cache", hit.1, hit.2⟩, st, 0⟩
        | none =>
          match compute_func id descr with
          | .error e =>
            ⟨.err (.computeFailure ("Failed to compute " ++ func ++ ": " ++ e)), st, 1⟩
          | .ok payload =>
            let stored := store_result st table_name key_field id payload now storeFails
            ⟨.ok ⟨"ok", "computed", payload, now⟩, stored.2, 1⟩

/-- The storage backend selected once at startup by `Database.init_db`
(db.py lines 68–82): the client/server engine when it can be reached,
otherwise the embedded APSW/SQLite engine. -/
inductive Backend where
  | postgres
  | sqlite
deriving DecidableEq, Repr

/-- The exceptions `clear_cache` can raise: the `ValueError` for an
unknown dataset, and the `AttributeError` raised by reading
`cursor.rowcount` off the cursor that `db.execute` returns on the
embedded backend — APSW is not DB-API compliant, its cursors expose
no `rowcount` attribute (affected counts would come from
`Connection.changes()`). -/
inductive ClearErr where
  | invalidDataset (msg : String)
  | attributeError (msg : String)
deriving DecidableEq, Repr

/-- Everything observable about one `clear_cache` call: the returned
count or the exception raised, and the database state afterwards — a
`DELETE` that ran before the exception has still taken effect, since
APSW runs in autocommit mode. -/
structure ClearOutcome where
  result : Except ClearErr Nat
  state : DBState

/-- One iteration of the `for function_name in functions` loop of
`clear_cache` (resolver.py lines 241–254): `db.execute` runs the
`DELETE` (matching rows by id when one is given, the whole table
otherwise) and returns a cursor; `cleared += cursor.rowcount` then
reads the affected count off the `_PGCursorResult` on the
client/server backend (db.py lines 425–439), but on the embedded
backend the cursor is a raw APSW cursor (db.py lines 477–483) with no
`rowcount` attribute, so the read raises `AttributeError` — after the
`DELETE` already took effect.  Once an exception is raised, no further
iteration executes. -/
def clear_step (backend : Backend) (dataset : String) (id : Option String)
    (acc : ClearOutcome) (fn : String) : ClearOutcome :=
  match acc.result with
  | .error _ => acc
  | .ok cleared =>
    let table_name := dataset ++ "_" ++ fn
    let rows := acc.state.cache table_name
    let kept := match id with
      | some i => rows.filter (fun r => !(r.key == i))
      | none => ([] : List CacheRow)
    let st' := acc.state.setTable table_name kept
    match backend with
    | .postgres => ⟨.ok (cleared + (rows.length - kept.length)), st'⟩
    | .sqlite =>
      ⟨.error (.attributeError "apsw.Cursor object has no attribute rowcount"), st'⟩

/-- The `functions` list of `clear_cache`: `[func]` when a function is
given, all of the dataset's function names otherwise, then the
redundant `if func and function_name != func: continue` guard. -/
def selected_functions (funcs : List (String × ComputeFn))
    (func : Option String) : List String :=
  (match func with
    | some f => [f]
    | none => funcs.map Prod.fst).filter (fun fn =>
      match func with
      | some f => fn == f
      | none => true)

/-- `FunctionResolver.clear_cache` (resolver.py lines 217–257):
validate the dataset, select the function list and run the delete
loop over it, returning the accumulated count — or propagating the
exception of the first iteration that raised. -/
def clear_cache (backend : Backend) (fm : FuncMap) (st : DBState) (dataset : String)
    (func : Option String) (id : Option String) : ClearOutcome :=
  match List.lookup dataset fm with
  | none => ⟨.error (.invalidDataset ("Invalid dataset: " ++ dataset)), st⟩
  | some funcs =>
    (selected_functions funcs func).foldl (clear_step backend dataset id) ⟨.ok 0, st⟩

end FunctionResolver

/-! ## Dataset configuration (`backend/dataset_config.py`) -/

/-- `DatasetConfig` of dataset_config.py lines 8–21. -/
structure DatasetConfig where
  csv_filename : String
  table : String
  key_field : String
  title_field : String
  theme_field : String
  subtheme_field : Option String
  description_field : String
  ai_functions : List String
  category_field : Option String
  theme_delimiter : Option String
deriving DecidableEq, Repr

/-- `DATASET_CONFIG` of dataset_config.py lines 24–69, in the source's
dictionary (insertion) order. -/
def DATASET_CONFIG : List (String × DatasetConfig) :=
  [("issues",
    { csv_filename := "issues.csv"
      table := "issues_raw"
      key_field := "issue_id"
      title_field := "issue_title"
      category_field := some "issues_type"
      theme_field := "risk_theme"
      subtheme_field := some "risk_subtheme"
      description_field := "issue_title"
      ai_functions := ["issue_taxonomy", "root_cause", "enrichment", "slow_enrichment"]
      theme_delimiter := some "," }),
   ("controls",
    { csv_filename := "controls.csv"
      table := "controls_raw"
      key_field := "control_id"
      title_field := "control_title"
      category_field := some "key_control"
      theme_field := "risk_theme"
      subtheme_field := some "risk_subtheme"
      description_field := "control_title"
      ai_functions := ["controls_taxonomy", "root_cause", "enrichment", "slow_enrichment"]
      theme_delimiter := some "," }),
   ("external_loss",
    { csv_filename := "external_loss.csv"
      table := "external_loss_raw"
      key_field := "reference_id_code"
      title_field := "description_of_event"
      category_field := some "parent_name"
      theme_field := "risk_theme"
      subtheme_field := some "risk_subtheme"
      description_field := "description_of_event"
      ai_functions := ["issue_taxonomy", "root_cause", "enrichment", "slow_enrichment"]
      theme_delimiter := some "," }),
   ("internal_loss",
    { csv_filename := "internal_loss.csv"
      table := "internal_loss_raw"
      key_field := "event_id"
      title_field := "event_title"
      category_field := some "event_type"
      theme_field := "risk_theme"
      subtheme_field := some "risk_subtheme"
      description_field := "event_title"
      ai_functions := ["issue_taxonomy", "root_cause", "enrichment", "slow_enrichment"]
      theme_delimiter := some "," })]

/-- The cache tables created at startup by
`Database._create_tables_sqlite` (db.py lines 243–256) and
`Database._create_tables_postgres` (db.py lines 296–309): for every
dataset and every configured AI function, the table
`<dataset>_<func>` with primary key `config.key_field`.  Listed as
(table name, primary-key column) pairs. -/
def created_cache_tables : List (String × String) :=
  (DATASET_CONFIG.map (fun dc =>
    dc.2.ai_functions.map (fun f => (dc.1 ++ "_" ++ f, dc.2.key_field)))).flatten

/-! ## Query-dialect adapter (`backend/db.py`)

Python strings are modelled as `List Char`; each helper mirrors the
corresponding `str` method used by `Database._adapt_insert_or_replace`
(db.py lines 347–393). -/

/-- Python `str.upper()` (the adapter only meets ASCII SQL text). -/
def pyUpper (s : List Char) : List Char := s.map Char.toUpper

/-- Substring occurrence test at the start (Python `str.startswith`,
also the building block of `str.find`). -/
def isPre : List Char → List Char → Bool
  | [], _ => true
  | _ :: _, [] => false
  | a :: as, b :: bs => a == b && isPre as bs

/-- Python `str.find(needle)` / `str.index(needle)` (character index
of the leftmost occurrence, `none` when absent — the source's `-1` /
`ValueError`). -/
def findSub (hay needle : List Char) : Option Nat :=
  if isPre needle hay then some 0
  else
    match hay with
    | [] => none
    | _ :: t => (findSub t needle).map Nat.succ

/-- Python `str.replace(old, new, 1)`: replace the leftmost occurrence
only. -/
def replaceFirst (s old new : List Char) : List Char :=
  match findSub s old with
  | none => s
  | some i => s.take i ++ new ++ s.drop (i + old.length)

/-- Python `str.rstrip(chars)`: drop trailing characters belonging to
`chars`. -/
def rstripSet (s chars : List Char) : List Char :=
  (s.reverse.dropWhile (fun c => chars.contains c)).reverse

/-- Python `str.lstrip()` (no argument: whitespace). -/
def lstripWs (s : List Char) : List Char := s.dropWhile Char.isWhitespace

/-- Python `str.strip()` (no argument: whitespace, both ends). -/
def stripWs (s : List Char) : List Char :=
  ((s.dropWhile Char.isWhitespace).reverse.dropWhile Char.isWhitespace).reverse

/-- Python `str.split(sep)` for a single-character separator. -/
def splitChar (s : List Char) (sep : Char) : List (List Char) :=
  match s with
  | [] => [[]]
  | c :: t =>
    let r := splitChar t sep
    if c = sep then [] :: r
    else
      match r with
      | h :: ts => (c :: h) :: ts
      | [] => [[c]]

/-- Python `sep.join(parts)`. -/
def joinSep (sep : List Char) : List (List Char) → List Char
  | [] => []
  | [p] => p
  | p :: rest => p ++ sep ++ joinSep sep rest

namespace Database

/-- `Database._get_key_field_for_table` (db.py lines 314–319): the
first dataset whose raw-table name equals `table` or whose
`"<dataset>_"` prefix starts `table` supplies the key field. -/
def get_key_field_for_table (table : List Char) : Option (List Char) :=
  DATASET_CONFIG.findSome? (fun dc =>
    if dc.2.table.data = table ∨ isPre (dc.1 ++ "_").data table then
      some dc.2.key_field.data
    else none)

/-- The extraction of the table name after the matched token
(db.py lines 356–362): `lstrip` then take characters up to the first
whitespace or `(`. -/
def tableNameAfter (after : List Char) : List Char :=
  (lstripWs after).takeWhile (fun c => !(c.isWhitespace || c = '('))

/-- `Database._adapt_insert_or_replace` (db.py lines 347–393):
translate `INSERT OR REPLACE INTO <table> (<cols>) VALUES (...)` into
an `INSERT ... ON CONFLICT (<key>) DO UPDATE SET <col> =
EXCLUDED.<col>, ...` (or `DO NOTHING` when the explicit column list
has no non-key column), by pure text rewriting. -/
def adapt_insert_or_replace (query : List Char) : List Char :=
  let token := "INSERT OR REPLACE INTO".data
  match findSub (pyUpper query) token with
  | none => query
  | some idx =>
    let after := query.drop (idx + token.length)
    let table := tableNameAfter after
    match get_key_field_for_table table with
    | none => replaceFirst query "INSERT OR REPLACE".data "INSERT".data
    | some key_field =>
      match (findSub (query.drop idx) ['(']).map (· + idx) with
      | none => replaceFirst query "INSERT OR REPLACE".data "INSERT".data
      | some start_cols =>
        match (findSub (query.drop start_cols) [')']).map (· + start_cols) with
        | none => replaceFirst query "INSERT OR REPLACE".data "INSERT".data
        | some end_cols =>
          let columns_str := (query.take end_cols).drop (start_cols + 1)
          let columns := ((splitChar columns_str ',').map stripWs).filter (fun c => c ≠ [])
          let non_key_columns := columns.filter (fun c => c ≠ key_field)
          let base := rstripSet
            (replaceFirst query "INSERT OR REPLACE".data "INSERT".data) ";\n ".data
          if non_key_columns ≠ [] then
            let assignments := joinSep ", ".data
              (non_key_columns.map (fun col => col ++ " = EXCLUDED.".data ++ col))
            base ++ " ON CONFLICT (".data ++ key_field
              ++ ") DO UPDATE SET ".data ++ assignments
          else
            base ++ " ON CONFLICT (".data ++ key_field ++ ") DO NOTHING".data

end Database

/-! ## Resumable bulk runner (`backend/cli_tool/bulk_process.py`) -/

/-- The persisted progress side-file's content
(`CacheManager.save`, bulk_process.py lines 60–70): the configuration
tag `(dataset, ai_function, refresh)` plus the processed id list. -/
structure CacheFileData where
  dataset : String
  ai_function : String
  refresh : Bool
  processed_ids : List String
deriving DecidableEq, Repr

namespace CacheManager

/-- `CacheManager._load` (bulk_process.py lines 40–55): an absent (or
unreadable) file contributes nothing; a present file's
`processed_ids` are adopted only when all three tag fields equal the
current run's configuration. -/
def load (file : Option CacheFileData) (dataset ai_function : String)
    (refresh : Bool) : List String :=
  match file with
  | none => []
  | some d =>
    if d.dataset = dataset ∧ d.ai_function = ai_function ∧ d.refresh = refresh then
      d.processed_ids
    else []

end CacheManager

/-- The candidate list of `run_bulk_process` (bulk_process.py lines
127–133): all ids when `refresh`, otherwise the ids with no row in the
function's cache table. -/
def candidate_ids (all_ids computed_ids : List String) (refresh : Bool) : List String :=
  if refresh then all_ids else all_ids.filter (fun i => !(computed_ids.contains i))

/-- `pending_ids` of `run_bulk_process` (bulk_process.py line 135):
the candidates not recorded as processed by the progress file. -/
def pending_ids (candidates processed : List String) : List String :=
  candidates.filter (fun i => !(processed.contains i))

/-- A single-statement upsert of the portable vocabulary:
`INSERT OR REPLACE INTO <table> (<cols>) VALUES (<vals>)`. -/
def insertOrReplaceQuery (table cols vals : List Char) : List Char :=
  "INSERT OR REPLACE INTO ".data ++ table ++ " (".data ++ cols
    ++ ") VALUES (".data ++ vals ++ [')']

/-- Modelled from the spec: the rewrite the adapter must produce for
the client/server backend — the same insert with `INSERT` in place of
`INSERT OR REPLACE`, followed by an `ON CONFLICT` clause on the
table's key column that sets every non-key column of the explicit
column list to the incoming (`EXCLUDED`) value, or `DO NOTHING` when
the column list has no non-key column. -/
def specRewrittenInsertOrReplace (table cols vals key_field : List Char)
    (colNames : List (List Char)) : List Char :=
  let non_key := colNames.filter (fun c => c ≠ key_field)
  "INSERT INTO ".data ++ table ++ " (".data ++ cols ++ ") VALUES (".data ++ vals ++ [')']
    ++ (if non_key ≠ [] then
          " ON CONFLICT (".data ++ key_field ++ ") DO UPDATE SET ".data
            ++ joinSep ", ".data (non_key.map (fun col => col ++ " = EXCLUDED.".data ++ col))
        else " ON CONFLICT (".data ++ key_field ++ ") DO NOTHING".data)

/-! ## Concrete instances used by the witnesses -/

/-- A deterministic compute function echoing the description it was
invoked with as its payload. -/
def echo_compute : ComputeFn := fun _ descr => .ok ⟨descr⟩

/-- A compute function that always raises. -/
def fail_compute : ComputeFn := fun _ _ => .error "boom"

/-- A function map binding `issues → ai_taxonomy` to `echo_compute`
(the resolver's `function_map` shape restricted to one function). -/
def sampleFm : FuncMap := [("issues", [("ai_taxonomy", echo_compute)])]

/-- Like `sampleFm` but the function raises. -/
def failFm : FuncMap := [("issues", [("ai_taxonomy", fail_compute)])]

/-- Two functions for the `issues` dataset. -/
def twoFnFm : FuncMap :=
  [("issues", [("ai_taxonomy", echo_compute), ("ai_root_causes", echo_compute)])]

/-- A raw store holding one `issues` record and empty caches. -/
def sampleState : DBState :=
  { raw := fun d i =>
      if d = "issues" ∧ i = "ISS-1" then some "Payment gateway timeout" else none
    cache := fun _ => [] }

/-- An empty raw store with a stale cache row for `ISS-2`. -/
def staleState : DBState :=
  { raw := fun _ _ => none
    cache := fun t =>
      if t = "issues_ai_taxonomy" then [⟨"ISS-2", "stale", "T0"⟩] else [] }

/-- Rows in two `issues` function tables (one in `ai_taxonomy`, two in
`ai_root_causes`), empty raw store. -/
def twoFnState : DBState :=
  { raw := fun _ _ => none
    cache := fun t =>
      if t = "issues_ai_taxonomy" then [⟨"A", "p1", "T0"⟩]
      else if t = "issues_ai_root_causes" then [⟨"B", "p2", "T0"⟩, ⟨"C", "p3", "T0"⟩]
      else [] }

/-! ## Helper lemmas and claim theorems -/

open FunctionResolver in
/-- C2: for every valid dataset and function, `resolve` on an id with
no row in the dataset's raw store fails with the not-found error,
leaves the state untouched and never invokes the compute function —
for an arbitrary state, in particular one whose cache holds rows for
that (dataset, function, id): the raw-record existence check runs
before any cache lookup, so a cache row is never returned for a
nonexistent record. -/
theorem resolve_notfound_precedence (fm : FuncMap) (st : DBState) (dataset func id : String)
    (funcs : List (String × ComputeFn)) (cf : ComputeFn)
    (description : Option String) (refresh : Bool) (now : String) (sf : Bool)
    (hfm : List.lookup dataset fm = some funcs)
    (hcf : List.lookup func funcs = some cf)
    (hraw : st.raw dataset id = none) :
    (resolve fm st dataset func id description refresh now sf).result
      = .err (.notFound ("ID " ++ id ++ " not found in " ++ dataset)) ∧
    (resolve fm st dataset func id description refresh now sf).state = st ∧
    (resolve fm st dataset func id description refresh now sf).computeCalls = 0 := by
  simp [resolve, hfm, hcf, hraw]

open FunctionResolver in
/-- C3: for every valid dataset, function and existing record id, if
the compute function raises during `resolve` then no cache entry is
written (the state is exactly what it was before the call) and
`resolve` surfaces the compute-failure error whose message wraps the
underlying cause; a later identical `resolve` simply recomputes
(invokes the compute function once more). -/
theorem resolve_compute_failure_no_write (fm : FuncMap) (st : DBState) (dataset func id : String)
    (funcs : List (String × ComputeFn)) (cf : ComputeFn)
    (description : Option String) (refresh : Bool) (now : String) (sf : Bool)
    (rawDesc e : String)
    (hfm : List.lookup dataset fm = some funcs)
    (hcf : List.lookup func funcs = some cf)
    (hraw : st.raw dataset id = some rawDesc)
    (hmiss : refresh = false →
      get_cached_result st (dataset ++ "_" ++ func)
        ((List.lookup dataset key_fields).getD "") id = none)
    (hcompute : cf id (description.getD rawDesc) = .error e) :
    (resolve fm st dataset func id description refresh now sf).result
      = .err (.computeFailure ("Failed to compute " ++ func ++ ": " ++ e)) ∧
    (resolve fm st dataset func id description refresh now sf).state = st ∧
    (resolve fm st dataset func id description refresh now sf).computeCalls = 1 ∧
    (resolve fm (resolve fm st dataset func id description refresh now sf).state
      dataset func id description refresh now sf).computeCalls = 1 := by
  have hmain : (resolve fm st dataset func id description refresh now sf).result
      = .err (.computeFailure ("Failed to compute " ++ func ++ ": " ++ e)) ∧
      (resolve fm st dataset func id description refresh now sf).state = st ∧
      (resolve fm st dataset func id description refresh now sf).computeCalls = 1 := by
    cases refresh with
    | false => simp [resolve, hfm, hcf, hraw, hmiss rfl, hcompute]
    | true => simp [resolve, hfm, hcf, hraw, hcompute]
  refine ⟨hmain.1, hmain.2.1, hmain.2.2, ?_⟩
  rw [hmain.2.1]
  exact hmain.2.2

theorem find?_filter_ne_key (rows : List CacheRow) (id : String) :
    (rows.filter (fun r => !(r.key == id))).find? (fun r => r.key == id) = none := by
  induction rows with
  | nil => rfl
  | cons h t ih =>
    by_cases hk : h.key = id
    · simp [List.filter_cons, hk, ih]
    · simp [List.filter_cons, hk, List.find?_cons, ih]

open FunctionResolver in
theorem find?_insert_or_replace (rows : List CacheRow) (k p c : String) :
    (insert_or_replace_rows rows ⟨k, p, c⟩).find? (fun r => r.key == k) = some ⟨k, p, c⟩ := by
  simp [insert_or_replace_rows, List.find?_append, find?_filter_ne_key]

namespace FunctionResolver

theorem resolve_hit (fm : FuncMap) (st : DBState) (dataset func id : String)
    (funcs : List (String × ComputeFn)) (cf : ComputeFn)
    (description : Option String) (now : String) (sf : Bool) (p : Json) (ca : String)
    (hfm : List.lookup dataset fm = some funcs)
    (hcf : List.lookup func funcs = some cf)
    (rd : String)
    (hraw : st.raw dataset id = some rd)
    (hhit : get_cached_result st (dataset ++ "_" ++ func)
      ((List.lookup dataset key_fields).getD "") id = some (p, ca)) :
    resolve fm st dataset func id description false now sf
      = ⟨.ok ⟨"ok", "cache", p, ca⟩, st, 0⟩ := by
  simp [resolve, hfm, hcf, hraw, hhit]

theorem resolve_miss_ok (fm : FuncMap) (st : DBState) (dataset func id : String)
    (funcs : List (String × ComputeFn)) (cf : ComputeFn)
    (description : Option String) (refresh : Bool) (now : String) (sf : Bool) (p : Json)
    (hfm : List.lookup dataset fm = some funcs)
    (hcf : List.lookup func funcs = some cf)
    (rd : String)
    (hraw : st.raw dataset id = some rd)
    (hhit : (if refresh then none else get_cached_result st (dataset ++ "_" ++ func)
      ((List.lookup dataset key_fields).getD "") id) = none)
    (hcompute : cf id (description.getD rd) = .ok p) :
    resolve fm st dataset func id description refresh now sf
      = ⟨.ok ⟨"ok", "computed", p, now⟩,
          (store_result st (dataset ++ "_" ++ func)
            ((List.lookup dataset key_fields).getD "") id p now sf).2, 1⟩ := by
  simp [resolve, hfm, hcf, hraw, hhit, hcompute]

end FunctionResolver

open FunctionResolver in
/-- C1: after one `resolve` call that successfully computed and stored
a result (`source = "computed"`, no storage failure), every subsequent
`resolve` call with `refresh = false` returns source `"cache"` with
payload and `created_at` identical to the stored ones, performs no
cache write (the state is unchanged, so this extends to the whole
sequence of subsequent calls), and does not invoke the compute
function again — across the sequence the compute function is invoked
at most once (exactly once, by the first call). -/
theorem resolve_cache_hit_idempotent (fm : FuncMap) (st : DBState) (dataset func id : String)
    (funcs : List (String × ComputeFn)) (cf : ComputeFn)
    (desc1 desc2 : Option String) (refresh1 : Bool) (now1 now2 : String) (sf2 : Bool)
    (r1 : ResolveOk)
    (hfm : List.lookup dataset fm = some funcs)
    (hcf : List.lookup func funcs = some cf)
    (h1 : (resolve fm st dataset func id desc1 refresh1 now1 false).result = .ok r1)
    (hsrc : r1.source = "computed") :
    (resolve fm (resolve fm st dataset func id desc1 refresh1 now1 false).state
        dataset func id desc2 false now2 sf2).result
      = .ok ⟨"ok", "cache", r1.payload, r1.created_at⟩ ∧
    (resolve fm (resolve fm st dataset func id desc1 refresh1 now1 false).state
        dataset func id desc2 false now2 sf2).state
      = (resolve fm st dataset func id desc1 refresh1 now1 false).state ∧
    (resolve fm (resolve fm st dataset func id desc1 refresh1 now1 false).state
        dataset func id desc2 false now2 sf2).computeCalls = 0 ∧
    (resolve fm st dataset func id desc1 refresh1 now1 false).computeCalls = 1 := by
  rcases hr : st.raw dataset id with _ | rawDesc
  · simp [resolve, hfm, hcf, hr] at h1
  rcases hhit : (if refresh1 then none
      else get_cached_result st (dataset ++ "_" ++ func)
        ((List.lookup dataset key_fields).getD "") id) with _ | hit
  · rcases hcompute : cf id (desc1.getD rawDesc) with payload | e
    · have houtcome := resolve_miss_ok fm st dataset func id funcs cf desc1 refresh1
        now1 false payload hfm hcf rawDesc hr hhit hcompute
      rw [houtcome] at h1
      obtain rfl : r1 = ⟨"ok", "computed", payload, now1⟩ := by cases h1; rfl
      rw [houtcome]
      have hhit2 : get_cached_result
          (store_result st (dataset ++ "_" ++ func)
            ((List.lookup dataset key_fields).getD "") id payload now1 false).2
          (dataset ++ "_" ++ func) ((List.lookup dataset key_fields).getD "") id
          = some (payload, now1) := by
        simp [store_result, DBState.setTable, get_cached_result,
          find?_insert_or_replace, json_loads, json_dumps]
      have hraw2 : (store_result st (dataset ++ "_" ++ func)
          ((List.lookup dataset key_fields).getD "") id payload now1 false).2.raw
          dataset id = some rawDesc := hr
      rw [resolve_hit fm _ dataset func id funcs cf desc2 now2 sf2 payload now1
        hfm hcf rawDesc hraw2 hhit2]
      exact ⟨rfl, rfl, rfl, rfl⟩
    · simp [resolve, hfm, hcf, hr, hhit, hcompute] at h1
  · have : r1 = ⟨"ok", "cache", hit.1, hit.2⟩ := by
      have h1' := h1
      simp [resolve, hfm, hcf, hr, hhit] at h1'
      cases h1'; rfl
    rw [this] at hsrc
    simp at hsrc

theorem countKey_insert_self (rows : List CacheRow) (k p c : String) :
    countKey (FunctionResolver.insert_or_replace_rows rows ⟨k, p, c⟩) k = 1 := by
  simp [countKey, FunctionResolver.insert_or_replace_rows, List.filter_append]

theorem length_filter_and_of_imp (p q : CacheRow → Bool) (rows : List CacheRow)
    (h : ∀ r, p r = true → q r = true) :
    (rows.filter (fun a => p a && q a)).length = (rows.filter p).length := by
  induction rows with
  | nil => rfl
  | cons hd t ih =>
    rcases hp : p hd with _ | _
    · simp [List.filter_cons, hp, ih]
    · simp [List.filter_cons, hp, h hd hp, ih]

theorem countKey_insert_ne (rows : List CacheRow) (k p c k' : String) (h : k' ≠ k) :
    countKey (FunctionResolver.insert_or_replace_rows rows ⟨k, p, c⟩) k'
      = countKey rows k' := by
  unfold countKey FunctionResolver.insert_or_replace_rows
  rw [List.filter_append]
  have h2 : (List.filter (fun r => r.key == k')
      [({ key := k, payload := p, created_at := c } : CacheRow)]).length = 0 := by
    simp [List.filter_cons, Ne.symm h]
  rw [List.length_append, h2, Nat.add_zero, List.filter_filter]
  exact length_filter_and_of_imp _ _ rows (by
    intro r hp
    simp only [beq_iff_eq] at hp
    simp [hp, h])

open FunctionResolver in
theorem resolve_state_shape (fm : FuncMap) (st : DBState) (dataset func id : String)
    (description : Option String) (refresh : Bool) (now : String) (sf : Bool) :
    (resolve fm st dataset func id description refresh now sf).state = st ∨
    ∃ table k p c, (resolve fm st dataset func id description refresh now sf).state
      = st.setTable table (insert_or_replace_rows (st.cache table) ⟨k, p, c⟩) := by
  rcases hl : List.lookup dataset fm with _ | funcs
  · exact Or.inl (by simp [resolve, hl])
  rcases hf : List.lookup func funcs with _ | cf
  · exact Or.inl (by simp [resolve, hl, hf])
  rcases hr : st.raw dataset id with _ | rd
  · exact Or.inl (by simp [resolve, hl, hf, hr])
  rcases hh : (if refresh then none else get_cached_result st (dataset ++ "_" ++ func)
      ((List.lookup dataset key_fields).getD "") id) with _ | hit
  · rcases hc : cf id (description.getD rd) with p | e
    · cases sf with
      | false =>
        refine Or.inr ⟨dataset ++ "_" ++ func, id, json_dumps p, now, ?_⟩
        simp [resolve, hl, hf, hr, hh, hc, store_result]
      | true => exact Or.inl (by simp [resolve, hl, hf, hr, hh, hc, store_result])
    · exact Or.inl (by simp [resolve, hl, hf, hr, hh, hc])
  · exact Or.inl (by simp [resolve, hl, hf, hr, hh])

open FunctionResolver in
/-- C4: for every valid dataset, function and existing record id,
`resolve` with `refresh = true` invokes the compute function even when
a cache entry already exists (the state is arbitrary); after a
successful refresh the cache table holds exactly one row for the id —
in particular after any two successful `refresh = true` resolves of
the same triple exactly one row exists; and every `resolve` call
whatsoever preserves the at-most-one-row-per-key invariant of every
cache table. -/
theorem resolve_refresh_upsert_invariant (fm : FuncMap) (st : DBState) (dataset func id : String)
    (funcs : List (String × ComputeFn)) (cf : ComputeFn) (rd : String)
    (hfm : List.lookup dataset fm = some funcs)
    (hcf : List.lookup func funcs = some cf)
    (hraw : st.raw dataset id = some rd) :
    (∀ desc now sf,
      (resolve fm st dataset func id desc true now sf).computeCalls = 1) ∧
    (∀ desc now p, cf id (desc.getD rd) = .ok p →
      countKey ((resolve fm st dataset func id desc true now false).state.cache
        (dataset ++ "_" ++ func)) id = 1) ∧
    (∀ desc1 desc2 now1 now2 p1 p2,
      cf id (desc1.getD rd) = .ok p1 → cf id (desc2.getD rd) = .ok p2 →
      countKey ((resolve fm
          (resolve fm st dataset func id desc1 true now1 false).state
          dataset func id desc2 true now2 false).state.cache
        (dataset ++ "_" ++ func)) id = 1) ∧
    (∀ (fm' : FuncMap) (st' : DBState) (d' f' i' : String) (desc' : Option String)
        (r' : Bool) (n' : String) (sf' : Bool),
      (∀ t k, countKey (st'.cache t) k ≤ 1) →
      (∀ t k, countKey
        ((resolve fm' st' d' f' i' desc' r' n' sf').state.cache t) k ≤ 1)) := by
  refine ⟨?_, ?_, ?_, ?_⟩
  · intro desc now sf
    rcases hc : cf id (desc.getD rd) with p | e
    · simp [resolve, hfm, hcf, hraw, hc]
    · simp [resolve, hfm, hcf, hraw, hc]
  · intro desc now p hc
    rw [resolve_miss_ok fm st dataset func id funcs cf desc true now false p
      hfm hcf rd hraw rfl hc]
    simp [store_result, DBState.setTable, countKey_insert_self]
  · intro desc1 desc2 now1 now2 p1 p2 hc1 hc2
    rw [resolve_miss_ok fm st dataset func id funcs cf desc1 true now1 false p1
      hfm hcf rd hraw rfl hc1]
    have hraw1 : ((store_result st (dataset ++ "_" ++ func)
        ((List.lookup dataset key_fields).getD "") id p1 now1 false).2).raw
        dataset id = some rd := hraw
    rw [resolve_miss_ok fm _ dataset func id funcs cf desc2 true now2 false p2
      hfm hcf rd hraw1 rfl hc2]
    simp [store_result, DBState.setTable, countKey_insert_self]
  · intro fm' st' d' f' i' desc' r' n' sf' hinv t k
    rcases resolve_state_shape fm' st' d' f' i' desc' r' n' sf' with hs | ⟨table, kk, pp, cc, hs⟩
    · rw [hs]; exact hinv t k
    · rw [hs]
      by_cases ht : t = table
      · subst ht
        simp only [DBState.setTable, if_pos rfl, if_true]
        by_cases hk : k = kk
        · subst hk
          rw [countKey_insert_self]
        · rw [countKey_insert_ne _ _ _ _ _ hk]
          exact hinv t k
      · simp only [DBState.setTable, if_neg ht]
        exact hinv t k

theorem table_name_inj (dataset f1 f2 : String)
    (h : dataset ++ "_" ++ f1 = dataset ++ "_" ++ f2) : f1 = f2 := by
  have hd := congrArg String.data h
  simp only [String.data_append, List.append_assoc] at hd
  exact String.ext (List.append_cancel_left (List.append_cancel_left hd))

namespace FunctionResolver

theorem clear_foldl_none (dataset : String) (fns : List String) :
    ∀ (st : DBState) (acc : Nat),
    (fns.map (fun fn => dataset ++ "_" ++ fn)).Nodup →
    (fns.foldl (clear_step .postgres dataset none) ⟨.ok acc, st⟩).result
      = .ok (acc + (fns.map (fun fn => (st.cache (dataset ++ "_" ++ fn)).length)).sum) ∧
    ∀ t, (fns.foldl (clear_step .postgres dataset none) ⟨.ok acc, st⟩).state.cache t
      = if t ∈ fns.map (fun fn => dataset ++ "_" ++ fn) then [] else st.cache t := by
  induction fns with
  | nil => intro st acc _; exact ⟨by simp, fun t => by simp⟩
  | cons fn rest ih =>
    intro st acc hnd
    simp only [List.map_cons, List.nodup_cons] at hnd
    obtain ⟨hnotin, hnd'⟩ := hnd
    simp only [List.foldl_cons]
    have hstep : clear_step .postgres dataset none ⟨.ok acc, st⟩ fn
        = ⟨.ok (acc + (st.cache (dataset ++ "_" ++ fn)).length),
           st.setTable (dataset ++ "_" ++ fn) []⟩ := rfl
    rw [hstep]
    obtain ⟨hcount, hstate⟩ := ih (st.setTable (dataset ++ "_" ++ fn) []) (acc + (st.cache (dataset ++ "_" ++ fn)).length) hnd'
    constructor
    · rw [hcount]
      have hlen : ∀ g ∈ rest, ((st.setTable (dataset ++ "_" ++ fn) []).cache
          (dataset ++ "_" ++ g)).length = (st.cache (dataset ++ "_" ++ g)).length := by
        intro g hg
        have hne : ¬ dataset ++ "_" ++ g = dataset ++ "_" ++ fn := by
          intro he
          exact hnotin (he ▸ List.mem_map_of_mem (fun x => dataset ++ "_" ++ x) hg)
        simp [DBState.setTable, hne]
      have hmapeq : rest.map (fun g => ((st.setTable (dataset ++ "_" ++ fn) []).cache
          (dataset ++ "_" ++ g)).length) = rest.map (fun g => (st.cache (dataset ++ "_" ++ g)).length) :=
        List.map_congr_left hlen
      rw [hmapeq]
      simp [List.map_cons, List.sum_cons, Nat.add_assoc]
    · intro t
      rw [hstate t]
      by_cases htin : t ∈ rest.map (fun g => dataset ++ "_" ++ g)
      · simp [htin]
      · by_cases hteq : t = dataset ++ "_" ++ fn
        · simp [htin, hteq, DBState.setTable]
        · simp [htin, hteq, DBState.setTable]

end FunctionResolver

namespace FunctionResolver

theorem clear_foldl_empty (dataset : String) (id : Option String) (fns : List String) :
    ∀ (st : DBState) (acc : Nat), (∀ t, st.cache t = []) →
    (fns.foldl (clear_step .postgres dataset id) ⟨.ok acc, st⟩).result = .ok acc ∧
    ∀ t, (fns.foldl (clear_step .postgres dataset id) ⟨.ok acc, st⟩).state.cache t = [] := by
  induction fns with
  | nil => intro st acc he; exact ⟨rfl, he⟩
  | cons fn rest ih =>
    intro st acc he
    simp only [List.foldl_cons]
    rcases id with _ | i
    · have hstep : clear_step .postgres dataset none ⟨.ok acc, st⟩ fn
          = ⟨.ok (acc + (st.cache (dataset ++ "_" ++ fn)).length),
             st.setTable (dataset ++ "_" ++ fn) []⟩ := rfl
      rw [hstep, he (dataset ++ "_" ++ fn)]
      simp only [List.length_nil, Nat.add_zero]
      exact ih _ acc (fun t => by by_cases h : t = dataset ++ "_" ++ fn <;>
        simp [DBState.setTable, h, he t])
    · have hstep : clear_step .postgres dataset (some i) ⟨.ok acc, st⟩ fn
          = ⟨.ok (acc + ((st.cache (dataset ++ "_" ++ fn)).length
              - ((st.cache (dataset ++ "_" ++ fn)).filter (fun r => !(r.key == i))).length)),
             st.setTable (dataset ++ "_" ++ fn)
               ((st.cache (dataset ++ "_" ++ fn)).filter (fun r => !(r.key == i)))⟩ := rfl
      rw [hstep, he (dataset ++ "_" ++ fn)]
      simp only [List.filter_nil, List.length_nil, Nat.sub_zero, Nat.add_zero]
      exact ih _ acc (fun t => by by_cases h : t = dataset ++ "_" ++ fn <;>
        simp [DBState.setTable, h, he t])

theorem clear_foldl_error (backend : Backend) (dataset : String) (id : Option String)
    (fns : List String) (e : ClearErr) (st : DBState) :
    fns.foldl (clear_step backend dataset id) ⟨.error e, st⟩ = ⟨.error e, st⟩ := by
  induction fns with
  | nil => rfl
  | cons fn rest ih =>
    simp only [List.foldl_cons]
    have hstep : clear_step backend dataset id ⟨.error e, st⟩ fn = ⟨.error e, st⟩ := rfl
    rw [hstep, ih]

theorem clear_foldl_sqlite (dataset : String) (id : Option String)
    (fn : String) (rest : List String) (st : DBState) :
    (fn :: rest).foldl (clear_step .sqlite dataset id) ⟨.ok 0, st⟩
      = ⟨.error (.attributeError "apsw.Cursor object has no attribute rowcount"),
         st.setTable (dataset ++ "_" ++ fn)
           (match id with
            | some i => (st.cache (dataset ++ "_" ++ fn)).filter (fun r => !(r.key == i))
            | none => [])⟩ := by
  simp only [List.foldl_cons]
  rcases id with _ | i
  · have hstep : clear_step .sqlite dataset none ⟨.ok 0, st⟩ fn
        = ⟨.error (.attributeError "apsw.Cursor object has no attribute rowcount"),
           st.setTable (dataset ++ "_" ++ fn) []⟩ := rfl
    rw [hstep, clear_foldl_error]
  · have hstep : clear_step .sqlite dataset (some i) ⟨.ok 0, st⟩ fn
        = ⟨.error (.attributeError "apsw.Cursor object has no attribute rowcount"),
           st.setTable (dataset ++ "_" ++ fn)
             ((st.cache (dataset ++ "_" ++ fn)).filter (fun r => !(r.key == i)))⟩ := rfl
    rw [hstep, clear_foldl_error]

end FunctionResolver

namespace FunctionResolver

theorem selected_functions_some (funcs : List (String × ComputeFn)) (f : String) :
    selected_functions funcs (some f) = [f] := by
  simp [selected_functions, List.filter_cons]

theorem selected_functions_none (funcs : List (String × ComputeFn)) :
    selected_functions funcs none = funcs.map Prod.fst := by
  simp [selected_functions]

end FunctionResolver

open FunctionResolver in
/-- C5 (amended): on the client/server backend — where `db.execute`
returns a `_PGCursorResult` carrying `rowcount` — `clear_cache`
returns the number of cache rows actually deleted: 0 on an all-empty
cache without error for any function/id selection; with function `F1`
specified (id omitted) it deletes exactly `F1`'s rows, returns their
count and leaves every other table unchanged; omitting function and id
clears all of the dataset's function tables and returns the total.
On the embedded APSW backend, however, the first loop iteration's
`cleared += cursor.rowcount` raises `AttributeError` (APSW cursors
have no `rowcount`), after that function's `DELETE` already took
effect — so there `clear_cache` never returns a count, not even 0 on
an empty table. -/
theorem clear_cache_counts_and_scope (fm : FuncMap) (st : DBState) (dataset : String)
    (funcs : List (String × ComputeFn))
    (hfm : List.lookup dataset fm = some funcs) :
    ((∀ t, st.cache t = []) → ∀ func id,
      (clear_cache .postgres fm st dataset func id).result = .ok 0 ∧
      ∀ t, (clear_cache .postgres fm st dataset func id).state.cache t = []) ∧
    (∀ F1,
      (clear_cache .postgres fm st dataset (some F1) none).result
        = .ok (st.cache (dataset ++ "_" ++ F1)).length ∧
      (clear_cache .postgres fm st dataset (some F1) none).state.cache
        (dataset ++ "_" ++ F1) = [] ∧
      ∀ t, t ≠ dataset ++ "_" ++ F1 →
        (clear_cache .postgres fm st dataset (some F1) none).state.cache t
          = st.cache t) ∧
    ((funcs.map Prod.fst).Nodup →
      (clear_cache .postgres fm st dataset none none).result
        = .ok ((funcs.map Prod.fst).map
            (fun fn => (st.cache (dataset ++ "_" ++ fn)).length)).sum ∧
      (∀ fn ∈ funcs.map Prod.fst,
        (clear_cache .postgres fm st dataset none none).state.cache
          (dataset ++ "_" ++ fn) = []) ∧
      (∀ t, t ∉ (funcs.map Prod.fst).map (fun fn => dataset ++ "_" ++ fn) →
        (clear_cache .postgres fm st dataset none none).state.cache t = st.cache t)) ∧
    (∀ func id fn rest, selected_functions funcs func = fn :: rest →
      (clear_cache .sqlite fm st dataset func id).result
        = .error (.attributeError "apsw.Cursor object has no attribute rowcount") ∧
      (clear_cache .sqlite fm st dataset func id).state
        = st.setTable (dataset ++ "_" ++ fn)
            (match id with
             | some i => (st.cache (dataset ++ "_" ++ fn)).filter (fun r => !(r.key == i))
             | none => [])) := by
  refine ⟨?_, ?_, ?_, ?_⟩
  · intro he func id
    obtain ⟨h1, h2⟩ := clear_foldl_empty dataset id (selected_functions funcs func) st 0 he
    constructor
    · simp only [clear_cache, hfm]
      exact h1
    · simp only [clear_cache, hfm]
      exact h2
  · intro F1
    have hone : (clear_cache .postgres fm st dataset (some F1) none)
        = ⟨.ok (0 + (st.cache (dataset ++ "_" ++ F1)).length),
           st.setTable (dataset ++ "_" ++ F1) []⟩ := by
      simp only [clear_cache, hfm, selected_functions_some, List.foldl_cons, List.foldl_nil]
      rfl
    rw [hone]
    refine ⟨by simp, by simp [DBState.setTable], fun t ht => by simp [DBState.setTable, ht]⟩
  · intro hnodup
    have hnd : ((funcs.map Prod.fst).map (fun fn => dataset ++ "_" ++ fn)).Nodup :=
      hnodup.map (fun f1 f2 h => table_name_inj dataset f1 f2 h)
    obtain ⟨h1, h2⟩ := clear_foldl_none dataset (funcs.map Prod.fst) st 0 hnd
    refine ⟨?_, ?_, ?_⟩
    · simp only [clear_cache, hfm, selected_functions_none]
      rw [h1]
      simp
    · intro fn hfn
      simp only [clear_cache, hfm, selected_functions_none]
      rw [h2 (dataset ++ "_" ++ fn), if_pos (List.mem_map_of_mem _ hfn)]
    · intro t ht
      simp only [clear_cache, hfm, selected_functions_none]
      rw [h2 t, if_neg ht]
  · intro func id fn rest hsel
    have hrun : clear_cache .sqlite fm st dataset func id
        = ⟨.error (.attributeError "apsw.Cursor object has no attribute rowcount"),
           st.setTable (dataset ++ "_" ++ fn)
             (match id with
              | some i => (st.cache (dataset ++ "_" ++ fn)).filter (fun r => !(r.key == i))
              | none => [])⟩ := by
      simp only [clear_cache, hfm, hsel]
      exact clear_foldl_sqlite dataset id fn rest st
    rw [hrun]
    exact ⟨rfl, rfl⟩

open FunctionResolver in
/-- C5 (counterexample): the claim "on an empty cache `clear_cache`
returns 0 without error" fails on the embedded backend: with every
cache table empty, `clear_cache` on the APSW/SQLite backend raises
`AttributeError` (reading `rowcount` off an APSW cursor) instead of
returning any count. -/
theorem clear_cache_rowcount_attribute_error :
    (∀ t, sampleState.cache t = []) ∧
    (clear_cache .sqlite sampleFm sampleState "issues" none none).result
      = .error (.attributeError "apsw.Cursor object has no attribute rowcount") ∧
    ∀ n : Nat, (clear_cache .sqlite sampleFm sampleState "issues" none none).result
      ≠ .ok n :=
  ⟨fun _ => rfl, rfl, fun _ h => nomatch h⟩

/-- Witness for C1 at a concrete input: one computed resolve for
`issues/ai_taxonomy/ISS-1`, then a `refresh = false` call returning
the cached payload and timestamp unchanged. -/
theorem resolve_cache_hit_idempotent_witness :
    (List.lookup "issues" sampleFm = some [("ai_taxonomy", echo_compute)] ∧
     List.lookup "ai_taxonomy" [("ai_taxonomy", echo_compute)] = some echo_compute ∧
     (FunctionResolver.resolve sampleFm sampleState "issues" "ai_taxonomy" "ISS-1"
        none false "T1" false).result
       = .ok ⟨"ok", "computed", ⟨"Payment gateway timeout"⟩, "T1"⟩) ∧
    ((FunctionResolver.resolve sampleFm
        (FunctionResolver.resolve sampleFm sampleState "issues" "ai_taxonomy" "ISS-1"
          none false "T1" false).state
        "issues" "ai_taxonomy" "ISS-1" none false "T2" false).result
      = .ok ⟨"ok", "cache", ⟨"Payment gateway timeout"⟩, "T1"⟩ ∧
     (FunctionResolver.resolve sampleFm
        (FunctionResolver.resolve sampleFm sampleState "issues" "ai_taxonomy" "ISS-1"
          none false "T1" false).state
        "issues" "ai_taxonomy" "ISS-1" none false "T2" false).state
      = (FunctionResolver.resolve sampleFm sampleState "issues" "ai_taxonomy" "ISS-1"
          none false "T1" false).state ∧
     (FunctionResolver.resolve sampleFm
        (FunctionResolver.resolve sampleFm sampleState "issues" "ai_taxonomy" "ISS-1"
          none false "T1" false).state
        "issues" "ai_taxonomy" "ISS-1" none false "T2" false).computeCalls = 0 ∧
     (FunctionResolver.resolve sampleFm sampleState "issues" "ai_taxonomy" "ISS-1"
        none false "T1" false).computeCalls = 1) :=
  ⟨⟨rfl, rfl, rfl⟩,
   resolve_cache_hit_idempotent sampleFm sampleState "issues" "ai_taxonomy" "ISS-1"
     [("ai_taxonomy", echo_compute)] echo_compute none none false "T1" "T2" false
     ⟨"ok", "computed", ⟨"Payment gateway timeout"⟩, "T1"⟩ rfl rfl rfl rfl⟩

/-- Witness for C2 at a concrete input: `ISS-2` is absent from the raw
store even though a stale cache row for it exists; `resolve` still
fails with not-found and touches nothing. -/
theorem resolve_notfound_precedence_witness :
    (List.lookup "issues" sampleFm = some [("ai_taxonomy", echo_compute)] ∧
     List.lookup "ai_taxonomy" [("ai_taxonomy", echo_compute)] = some echo_compute ∧
     staleState.raw "issues" "ISS-2" = none ∧
     staleState.cache "issues_ai_taxonomy" = [⟨"ISS-2", "stale", "T0"⟩]) ∧
    ((FunctionResolver.resolve sampleFm staleState "issues" "ai_taxonomy" "ISS-2"
        none false "T3" false).result
      = .err (.notFound ("ID " ++ "ISS-2" ++ " not found in " ++ "issues")) ∧
     (FunctionResolver.resolve sampleFm staleState "issues" "ai_taxonomy" "ISS-2"
        none false "T3" false).state = staleState ∧
     (FunctionResolver.resolve sampleFm staleState "issues" "ai_taxonomy" "ISS-2"
        none false "T3" false).computeCalls = 0) :=
  ⟨⟨rfl, rfl, rfl, rfl⟩,
   resolve_notfound_precedence sampleFm staleState "issues" "ai_taxonomy" "ISS-2"
     [("ai_taxonomy", echo_compute)] echo_compute none false "T3" false rfl rfl rfl⟩

/-- Witness for C3 at a concrete input: the compute function raises
`"boom"`; the error is wrapped, nothing is written, and an identical
retry recomputes. -/
theorem resolve_compute_failure_no_write_witness :
    (List.lookup "issues" failFm = some [("ai_taxonomy", fail_compute)] ∧
     List.lookup "ai_taxonomy" [("ai_taxonomy", fail_compute)] = some fail_compute ∧
     sampleState.raw "issues" "ISS-1" = some "Payment gateway timeout" ∧
     fail_compute "ISS-1" ((none : Option String).getD "Payment gateway timeout")
       = .error "boom") ∧
    ((FunctionResolver.resolve failFm sampleState "issues" "ai_taxonomy" "ISS-1"
        none false "T1" false).result
      = .err (.computeFailure ("Failed to compute " ++ "ai_taxonomy" ++ ": " ++ "boom")) ∧
     (FunctionResolver.resolve failFm sampleState "issues" "ai_taxonomy" "ISS-1"
        none false "T1" false).state = sampleState ∧
     (FunctionResolver.resolve failFm sampleState "issues" "ai_taxonomy" "ISS-1"
        none false "T1" false).computeCalls = 1 ∧
     (FunctionResolver.resolve failFm
        (FunctionResolver.resolve failFm sampleState "issues" "ai_taxonomy" "ISS-1"
          none false "T1" false).state
        "issues" "ai_taxonomy" "ISS-1" none false "T1" false).computeCalls = 1) :=
  ⟨⟨rfl, rfl, rfl, rfl⟩,
   resolve_compute_failure_no_write failFm sampleState "issues" "ai_taxonomy" "ISS-1"
     [("ai_taxonomy", fail_compute)] fail_compute none false "T1" false
     "Payment gateway timeout" "boom" rfl rfl rfl (fun _ => rfl) rfl⟩

/-- Witness for C4 at a concrete input (`issues/ai_taxonomy/ISS-1`
with an existing raw record). -/
theorem resolve_refresh_upsert_invariant_witness :
    (List.lookup "issues" sampleFm = some [("ai_taxonomy", echo_compute)] ∧
     List.lookup "ai_taxonomy" [("ai_taxonomy", echo_compute)] = some echo_compute ∧
     sampleState.raw "issues" "ISS-1" = some "Payment gateway timeout") ∧
    ((∀ desc now sf,
      (FunctionResolver.resolve sampleFm sampleState "issues" "ai_taxonomy" "ISS-1"
        desc true now sf).computeCalls = 1) ∧
    (∀ desc now p, echo_compute "ISS-1" (desc.getD "Payment gateway timeout") = .ok p →
      countKey ((FunctionResolver.resolve sampleFm sampleState "issues" "ai_taxonomy"
        "ISS-1" desc true now false).state.cache ("issues" ++ "_" ++ "ai_taxonomy"))
        "ISS-1" = 1) ∧
    (∀ desc1 desc2 now1 now2 p1 p2,
      echo_compute "ISS-1" (desc1.getD "Payment gateway timeout") = .ok p1 →
      echo_compute "ISS-1" (desc2.getD "Payment gateway timeout") = .ok p2 →
      countKey ((FunctionResolver.resolve sampleFm
          (FunctionResolver.resolve sampleFm sampleState "issues" "ai_taxonomy" "ISS-1"
            desc1 true now1 false).state
          "issues" "ai_taxonomy" "ISS-1" desc2 true now2 false).state.cache
        ("issues" ++ "_" ++ "ai_taxonomy")) "ISS-1" = 1) ∧
    (∀ (fm' : FuncMap) (st' : DBState) (d' f' i' : String) (desc' : Option String)
        (r' : Bool) (n' : String) (sf' : Bool),
      (∀ t k, countKey (st'.cache t) k ≤ 1) →
      (∀ t k, countKey
        ((FunctionResolver.resolve fm' st' d' f' i' desc' r' n' sf').state.cache t) k ≤ 1))) :=
  ⟨⟨rfl, rfl, rfl⟩,
   resolve_refresh_upsert_invariant sampleFm sampleState "issues" "ai_taxonomy" "ISS-1"
     [("ai_taxonomy", echo_compute)] echo_compute "Payment gateway timeout" rfl rfl rfl⟩

/-- Witness for C5 at a concrete input: two function tables for
`issues` holding one and two rows; on the client/server backend,
clearing only `ai_taxonomy` removes its single row and leaves
`ai_root_causes` intact, and clearing everything removes all three;
on the embedded backend the `rowcount` read raises. -/
theorem clear_cache_counts_and_scope_witness :
    (List.lookup "issues" twoFnFm
      = some [("ai_taxonomy", echo_compute), ("ai_root_causes", echo_compute)] ∧
     twoFnState.cache "issues_ai_taxonomy" = [⟨"A", "p1", "T0"⟩] ∧
     twoFnState.cache "issues_ai_root_causes" = [⟨"B", "p2", "T0"⟩, ⟨"C", "p3", "T0"⟩]) ∧
    (((∀ t, twoFnState.cache t = []) → ∀ func id,
      (FunctionResolver.clear_cache .postgres twoFnFm twoFnState "issues" func id).result
        = .ok 0 ∧
      ∀ t, (FunctionResolver.clear_cache .postgres twoFnFm twoFnState "issues"
        func id).state.cache t = []) ∧
    (∀ F1,
      (FunctionResolver.clear_cache .postgres twoFnFm twoFnState "issues"
        (some F1) none).result
        = .ok (twoFnState.cache ("issues" ++ "_" ++ F1)).length ∧
      (FunctionResolver.clear_cache .postgres twoFnFm twoFnState "issues"
        (some F1) none).state.cache ("issues" ++ "_" ++ F1) = [] ∧
      ∀ t, t ≠ "issues" ++ "_" ++ F1 →
        (FunctionResolver.clear_cache .postgres twoFnFm twoFnState "issues"
          (some F1) none).state.cache t = twoFnState.cache t) ∧
    ((([("ai_taxonomy", echo_compute), ("ai_root_causes", echo_compute)].map
        Prod.fst).Nodup →
      (FunctionResolver.clear_cache .postgres twoFnFm twoFnState "issues"
        none none).result
        = .ok (([("ai_taxonomy", echo_compute), ("ai_root_causes", echo_compute)].map
            Prod.fst).map
            (fun fn => (twoFnState.cache ("issues" ++ "_" ++ fn)).length)).sum ∧
      (∀ fn ∈ [("ai_taxonomy", echo_compute), ("ai_root_causes", echo_compute)].map
          Prod.fst,
        (FunctionResolver.clear_cache .postgres twoFnFm twoFnState "issues"
          none none).state.cache ("issues" ++ "_" ++ fn) = []) ∧
      (∀ t, t ∉ ([("ai_taxonomy", echo_compute), ("ai_root_causes", echo_compute)].map
          Prod.fst).map (fun fn => "issues" ++ "_" ++ fn) →
        (FunctionResolver.clear_cache .postgres twoFnFm twoFnState "issues"
          none none).state.cache t = twoFnState.cache t))) ∧
    (∀ func id fn rest,
      FunctionResolver.selected_functions
        [("ai_taxonomy", echo_compute), ("ai_root_causes", echo_compute)] func
        = fn :: rest →
      (FunctionResolver.clear_cache .sqlite twoFnFm twoFnState "issues"
        func id).result
        = .error (.attributeError "apsw.Cursor object has no attribute rowcount") ∧
      (FunctionResolver.clear_cache .sqlite twoFnFm twoFnState "issues"
        func id).state
        = twoFnState.setTable ("issues" ++ "_" ++ fn)
            (match id with
             | some i => (twoFnState.cache ("issues" ++ "_" ++ fn)).filter
                 (fun r => !(r.key == i))
             | none => []))) :=
  ⟨⟨rfl, rfl, rfl⟩,
   clear_cache_counts_and_scope twoFnFm twoFnState "issues"
     [("ai_taxonomy", echo_compute), ("ai_root_causes", echo_compute)] rfl⟩

open FunctionResolver in
/-- C6 (counterexample): the claim "resolve never reports a successful
computed result when its cache write raised a backend error" is false.
Here the backend raises during the cache write (`storeFails = true`):
`_store_result` catches the exception and returns `False`, `resolve`
discards the boolean, reports `status = "ok"`, `source = "computed"`,
and every cache table is still empty. -/
theorem store_failure_swallowed_counterexample :
    (FunctionResolver.resolve sampleFm sampleState "issues" "ai_taxonomy" "ISS-1"
        none false "T1" true).result
      = .ok ⟨"ok", "computed", ⟨"Payment gateway timeout"⟩, "T1"⟩ ∧
    ∀ t, (FunctionResolver.resolve sampleFm sampleState "issues" "ai_taxonomy" "ISS-1"
        none false "T1" true).state.cache t = [] :=
  ⟨rfl, fun _ => rfl⟩

open FunctionResolver in
/-- C6 (amended): when the compute step succeeds but the cache write
fails at the storage layer, the failure is *not* propagated:
`_store_result` catches the backend exception and returns `False`,
`resolve` ignores that boolean and still returns a successful computed
result (`status = "ok"`, `source = "computed"`), with the database
state unchanged (nothing was written). -/
theorem resolve_store_failure_swallowed (fm : FuncMap) (st : DBState)
    (dataset func id : String) (funcs : List (String × ComputeFn)) (cf : ComputeFn)
    (description : Option String) (refresh : Bool) (now : String) (rd : String) (p : Json)
    (hfm : List.lookup dataset fm = some funcs)
    (hcf : List.lookup func funcs = some cf)
    (hraw : st.raw dataset id = some rd)
    (hhit : (if refresh then none else get_cached_result st (dataset ++ "_" ++ func)
      ((List.lookup dataset key_fields).getD "") id) = none)
    (hcompute : cf id (description.getD rd) = .ok p) :
    (resolve fm st dataset func id description refresh now true).result
      = .ok ⟨"ok", "computed", p, now⟩ ∧
    (resolve fm st dataset func id description refresh now true).state = st := by
  rw [resolve_miss_ok fm st dataset func id funcs cf description refresh now true p
    hfm hcf rd hraw hhit hcompute]
  exact ⟨rfl, rfl⟩

/-- Witness for the amended C6 at a concrete input. -/
theorem resolve_store_failure_swallowed_witness :
    (List.lookup "issues" sampleFm = some [("ai_taxonomy", echo_compute)] ∧
     List.lookup "ai_taxonomy" [("ai_taxonomy", echo_compute)] = some echo_compute ∧
     sampleState.raw "issues" "ISS-1" = some "Payment gateway timeout" ∧
     echo_compute "ISS-1" ((none : Option String).getD "Payment gateway timeout")
       = .ok ⟨"Payment gateway timeout"⟩) ∧
    ((FunctionResolver.resolve sampleFm sampleState "issues" "ai_taxonomy" "ISS-1"
        none false "T1" true).result
      = .ok ⟨"ok", "computed", ⟨"Payment gateway timeout"⟩, "T1"⟩ ∧
     (FunctionResolver.resolve sampleFm sampleState "issues" "ai_taxonomy" "ISS-1"
        none false "T1" true).state = sampleState) :=
  ⟨⟨rfl, rfl, rfl, rfl⟩,
   resolve_store_failure_swallowed sampleFm sampleState "issues" "ai_taxonomy" "ISS-1"
     [("ai_taxonomy", echo_compute)] echo_compute none false "T1"
     "Payment gateway timeout" ⟨"Payment gateway timeout"⟩ rfl rfl rfl rfl rfl⟩

open FunctionResolver in
/-- C10 (counterexample): the claim "the context passed to computation
is determined by the raw store's contents for that id, not by
caller-supplied data" is false: the raw record's description is
`"Payment gateway timeout"`, the caller passes
`description = "caller-desc"`, and the compute function (which echoes
its context argument) is invoked with the caller's string — the
computed payload is `"caller-desc"`, not the stored description. -/
theorem compute_context_caller_override_counterexample :
    sampleState.raw "issues" "ISS-1" = some "Payment gateway timeout" ∧
    (FunctionResolver.resolve sampleFm sampleState "issues" "ai_taxonomy" "ISS-1"
        (some "caller-desc") true "T1" false).result
      = .ok ⟨"ok", "computed", ⟨"caller-desc"⟩, "T1"⟩ ∧
    ("caller-desc" : String) ≠ "Payment gateway timeout" :=
  ⟨rfl, rfl, by decide⟩

open FunctionResolver in
/-- C10 (amended): on every cache miss (and every `refresh = true`
call) `resolve` invokes the compute function exactly once, with the
record id and a description string that is the caller-supplied
`description` when one is provided and otherwise the `description`
column of the stored raw record — the raw store is the source of the
context only when the caller passes none. -/
theorem resolve_compute_context_description (fm : FuncMap) (st : DBState)
    (dataset func id : String) (funcs : List (String × ComputeFn)) (cf : ComputeFn)
    (description : Option String) (refresh : Bool) (now : String) (sf : Bool) (rd : String)
    (hfm : List.lookup dataset fm = some funcs)
    (hcf : List.lookup func funcs = some cf)
    (hraw : st.raw dataset id = some rd)
    (hhit : (if refresh then none else get_cached_result st (dataset ++ "_" ++ func)
      ((List.lookup dataset key_fields).getD "") id) = none) :
    (resolve fm st dataset func id description refresh now sf).computeCalls = 1 ∧
    (∀ p, cf id (description.getD rd) = .ok p →
      (resolve fm st dataset func id description refresh now sf).result
        = .ok ⟨"ok", "computed", p, now⟩) ∧
    (∀ e, cf id (description.getD rd) = .error e →
      (resolve fm st dataset func id description refresh now sf).result
        = .err (.computeFailure ("Failed to compute " ++ func ++ ": " ++ e))) := by
  refine ⟨?_, ?_, ?_⟩
  · rcases hc : cf id (description.getD rd) with p | e
    · simp [resolve, hfm, hcf, hraw, hhit, hc]
    · simp [resolve, hfm, hcf, hraw, hhit, hc]
  · intro p hc
    rw [resolve_miss_ok fm st dataset func id funcs cf description refresh now sf p
      hfm hcf rd hraw hhit hc]
  · intro e hc
    simp [resolve, hfm, hcf, hraw, hhit, hc]

/-- Witness for the amended C10 at a concrete input: no caller
description, so the compute function receives the raw record's
description column. -/
theorem resolve_compute_context_description_witness :
    (List.lookup "issues" sampleFm = some [("ai_taxonomy", echo_compute)] ∧
     List.lookup "ai_taxonomy" [("ai_taxonomy", echo_compute)] = some echo_compute ∧
     sampleState.raw "issues" "ISS-1" = some "Payment gateway timeout") ∧
    ((FunctionResolver.resolve sampleFm sampleState "issues" "ai_taxonomy" "ISS-1"
        none true "T1" false).computeCalls = 1 ∧
     (∀ p, echo_compute "ISS-1" ((none : Option String).getD "Payment gateway timeout")
        = .ok p →
      (FunctionResolver.resolve sampleFm sampleState "issues" "ai_taxonomy" "ISS-1"
        none true "T1" false).result = .ok ⟨"ok", "computed", p, "T1"⟩) ∧
     (∀ e, echo_compute "ISS-1" ((none : Option String).getD "Payment gateway timeout")
        = .error e →
      (FunctionResolver.resolve sampleFm sampleState "issues" "ai_taxonomy" "ISS-1"
        none true "T1" false).result
        = .err (.computeFailure ("Failed to compute " ++ "ai_taxonomy" ++ ": " ++ e)))) :=
  ⟨⟨rfl, rfl, rfl⟩,
   resolve_compute_context_description sampleFm sampleState "issues" "ai_taxonomy"
     "ISS-1" [("ai_taxonomy", echo_compute)] echo_compute none true "T1" false
     "Payment gateway timeout" rfl rfl rfl rfl⟩

/-- C9: the persisted progress side-file is consulted only when its
recorded (dataset, function, refresh) tag equals the current run's
configuration: with an absent file, or a file whose tag differs in any
component, the loaded processed-set is empty and the pending list is
exactly the candidate list (all candidate ids are processed); with a
matching tag, the pending list contains exactly the candidate ids not
recorded in `processed_ids`. -/
theorem bulk_resume_tag_gate (all_ids computed_ids : List String) (refresh : Bool)
    (dataset ai_function : String) (file : Option CacheFileData) :
    (file = none →
      CacheManager.load file dataset ai_function refresh = [] ∧
      pending_ids (candidate_ids all_ids computed_ids refresh)
        (CacheManager.load file dataset ai_function refresh)
        = candidate_ids all_ids computed_ids refresh) ∧
    (∀ d, file = some d →
      ¬(d.dataset = dataset ∧ d.ai_function = ai_function ∧ d.refresh = refresh) →
      CacheManager.load file dataset ai_function refresh = [] ∧
      pending_ids (candidate_ids all_ids computed_ids refresh)
        (CacheManager.load file dataset ai_function refresh)
        = candidate_ids all_ids computed_ids refresh) ∧
    (∀ d, file = some d →
      d.dataset = dataset ∧ d.ai_function = ai_function ∧ d.refresh = refresh →
      CacheManager.load file dataset ai_function refresh = d.processed_ids ∧
      ∀ i, i ∈ pending_ids (candidate_ids all_ids computed_ids refresh)
          (CacheManager.load file dataset ai_function refresh)
        ↔ i ∈ candidate_ids all_ids computed_ids refresh ∧ i ∉ d.processed_ids) := by
  refine ⟨?_, ?_, ?_⟩
  · intro hf
    subst hf
    refine ⟨rfl, ?_⟩
    simp [pending_ids, CacheManager.load]
  · intro d hf hmis
    subst hf
    have hload : CacheManager.load (some d) dataset ai_function refresh = [] := by
      simp [CacheManager.load, hmis]
    refine ⟨hload, ?_⟩
    rw [hload]
    simp [pending_ids]
  · intro d hf hmat
    subst hf
    have hload : CacheManager.load (some d) dataset ai_function refresh
        = d.processed_ids := by
      simp [CacheManager.load, hmat]
    refine ⟨hload, ?_⟩
    rw [hload]
    intro i
    simp [pending_ids]

/-- Witness for C9 at a concrete input: candidates {A, B, C, D} with a
progress file recording {A, B}; a matching run schedules exactly
{C, D}, while a run whose `refresh` flag differs ignores the file. -/
theorem bulk_resume_tag_gate_witness :
    ((some (⟨"issues", "root_cause", false, ["A", "B"]⟩ : CacheFileData)
        = some ⟨"issues", "root_cause", false, ["A", "B"]⟩) ∧
     ¬((⟨"issues", "root_cause", false, ["A", "B"]⟩ : CacheFileData).dataset = "issues" ∧
       (⟨"issues", "root_cause", false, ["A", "B"]⟩ : CacheFileData).ai_function = "root_cause" ∧
       (⟨"issues", "root_cause", false, ["A", "B"]⟩ : CacheFileData).refresh = true)) ∧
    (pending_ids (candidate_ids ["A", "B", "C", "D"] [] true)
       (CacheManager.load (some ⟨"issues", "root_cause", false, ["A", "B"]⟩)
         "issues" "root_cause" true)
       = candidate_ids ["A", "B", "C", "D"] [] true) ∧
    (∀ i, i ∈ pending_ids (candidate_ids ["A", "B", "C", "D"] [] false)
         (CacheManager.load (some ⟨"issues", "root_cause", false, ["A", "B"]⟩)
           "issues" "root_cause" false)
       ↔ i ∈ candidate_ids ["A", "B", "C", "D"] [] false ∧ i ∉ ["A", "B"]) :=
  ⟨⟨rfl, by decide⟩,
   ((bulk_resume_tag_gate ["A", "B", "C", "D"] [] true "issues" "root_cause"
      (some ⟨"issues", "root_cause", false, ["A", "B"]⟩)).2.1
      ⟨"issues", "root_cause", false, ["A", "B"]⟩ rfl (by decide)).2,
   fun i => ((bulk_resume_tag_gate ["A", "B", "C", "D"] [] false "issues" "root_cause"
      (some ⟨"issues", "root_cause", false, ["A", "B"]⟩)).2.2
      ⟨"issues", "root_cause", false, ["A", "B"]⟩ rfl (by decide)).2 i⟩

/-- C8: the claim fails on the code, and the code is the slip.  The
resolver's key field for `external_loss` is `"ext_loss_id"` and for
`internal_loss` is `"loss_id"`, but the cache tables created at
startup from `DATASET_CONFIG` use primary keys `"reference_id_code"`
and `"event_id"` respectively; moreover the table the resolver
addresses for `(external_loss, ai_taxonomy)` is never created at all.
So the invariant "the resolver's key field equals the primary key
declared for the dataset's cache tables" is violated by the code. -/
theorem resolver_key_field_mismatch :
    List.lookup "external_loss" FunctionResolver.key_fields = some "ext_loss_id" ∧
    (List.lookup "external_loss" DATASET_CONFIG).map DatasetConfig.key_field
      = some "reference_id_code" ∧
    List.lookup "internal_loss" FunctionResolver.key_fields = some "loss_id" ∧
    (List.lookup "internal_loss" DATASET_CONFIG).map DatasetConfig.key_field
      = some "event_id" ∧
    (∀ f ∈ ["issue_taxonomy", "root_cause", "enrichment", "slow_enrichment"],
      ("external_loss_" ++ f, "reference_id_code") ∈ created_cache_tables) ∧
    "external_loss_ai_taxonomy" ∉ created_cache_tables.map Prod.fst ∧
    ¬(∀ dataset kf, List.lookup dataset FunctionResolver.key_fields = some kf →
        (List.lookup dataset DATASET_CONFIG).map DatasetConfig.key_field = some kf) := by
  refine ⟨rfl, rfl, rfl, rfl, by decide, by decide, ?_⟩
  intro h
  exact absurd (h "external_loss" "ext_loss_id" rfl) (by decide)

theorem isPre_self_append (l r : List Char) : isPre l (l ++ r) = true := by
  induction l with
  | nil => rfl
  | cons a t ih => simp [isPre, ih]

theorem findSub_of_self_append (l r : List Char) : findSub (l ++ r) l = some 0 := by
  rw [findSub.eq_def]
  simp [isPre_self_append]

theorem findSub_single_append (A B : List Char) (c : Char) (hA : c ∉ A) :
    findSub (A ++ c :: B) [c] = some A.length := by
  induction A with
  | nil =>
    rw [List.nil_append, findSub.eq_def]
    simp [isPre]
  | cons a t ih =>
    have hca : ¬ c = a := fun h => hA (h ▸ List.mem_cons_self a t)
    have hct : c ∉ t := fun h => hA (List.mem_cons_of_mem a h)
    have hp : isPre [c] (a :: (t ++ c :: B)) = false := by
      simp [isPre, hca]
    rw [List.cons_append, findSub.eq_def]
    simp only [hp, Bool.false_eq_true, if_false, ih hct]
    rfl

theorem takeWhile_append_stop (p : Char → Bool) (xs : List Char) (y : Char)
    (ys : List Char) (hxs : ∀ x ∈ xs, p x = true) (hy : p y = false) :
    (xs ++ y :: ys).takeWhile p = xs := by
  induction xs with
  | nil => simp [List.takeWhile_cons, hy]
  | cons a t ih =>
    have ha : p a = true := hxs a (List.mem_cons_self a t)
    rw [List.cons_append, List.takeWhile_cons, ha]
    simp only [if_true]
    rw [ih (fun x hx => hxs x (List.mem_cons_of_mem a hx))]

theorem rstripSet_append_last (xs : List Char) (c : Char) (chars : List Char)
    (hc : c ∉ chars) :
    rstripSet (xs ++ [c]) chars = xs ++ [c] := by
  simp [rstripSet, List.dropWhile_cons, hc]

theorem tableNameAfter_spec (table rest : List Char) (htne : table ≠ [])
    (htable : ∀ c ∈ table, c.isWhitespace = false ∧ c ≠ '(') :
    Database.tableNameAfter ([' '] ++ (table ++ (' ' :: rest))) = table := by
  rcases table with _ | ⟨c0, t0⟩
  · exact absurd rfl htne
  have hc0 := htable c0 (List.mem_cons_self c0 t0)
  unfold Database.tableNameAfter lstripWs
  simp only [List.cons_append, List.nil_append]
  rw [List.dropWhile_cons, if_pos (by decide)]
  rw [List.dropWhile_cons, if_neg (by simp [hc0.1])]
  have harr : c0 :: (t0 ++ ' ' :: rest) = (c0 :: t0) ++ ' ' :: rest := by simp
  rw [harr]
  exact takeWhile_append_stop _ _ _ _
    (fun x hx => by simp [(htable x hx).1, (htable x hx).2])
    (by decide)

/-- C7: for every single-statement query of the form
`INSERT OR REPLACE INTO <table> (<cols>) VALUES (<vals>)` whose table
name resolves to a registered key field, the adapter's rewrite for the
client/server backend produces the same `INSERT` with an
`ON CONFLICT (<key>)` clause that sets every non-key column of the
explicit column list to the incoming (`EXCLUDED`) value, and an
on-conflict-do-nothing clause when the column list has no non-key
column.  `colNames` is the explicit column list (the hypothesis
`hparse` states that the text between the parentheses reads as that
list); the table name may not contain whitespace or `(` and the
column text may not contain `)` — the adapter's documented grammar. -/
theorem adapt_insert_or_replace_spec (table cols vals key_field : List Char)
    (colNames : List (List Char))
    (htne : table ≠ [])
    (htable : ∀ c ∈ table, c.isWhitespace = false ∧ c ≠ '(')
    (hcols : ∀ c ∈ cols, c ≠ ')')
    (hkey : Database.get_key_field_for_table table = some key_field)
    (hparse : ((splitChar cols ',').map stripWs).filter (fun c => c ≠ []) = colNames) :
    Database.adapt_insert_or_replace (insertOrReplaceQuery table cols vals)
      = specRewrittenInsertOrReplace table cols vals key_field colNames := by
  have hq : insertOrReplaceQuery table cols vals
      = "INSERT OR REPLACE INTO".data ++ ([' '] ++ (table ++ ([' '] ++ ['(']
          ++ (cols ++ ([')'] ++ (" VALUES (".data ++ (vals ++ [')'])))))))  := by
    simp [insertOrReplaceQuery, List.append_assoc]
  have hupper : pyUpper "INSERT OR REPLACE INTO".data = "INSERT OR REPLACE INTO".data := by
    decide
  have hfind : findSub (pyUpper (insertOrReplaceQuery table cols vals))
      "INSERT OR REPLACE INTO".data = some 0 := by
    rw [hq]
    rw [show pyUpper ("INSERT OR REPLACE INTO".data ++ ([' '] ++ (table ++ ([' '] ++ ['(']
          ++ (cols ++ ([')'] ++ (" VALUES (".data ++ (vals ++ [')']))))))))
        = pyUpper "INSERT OR REPLACE INTO".data ++ pyUpper ([' '] ++ (table ++ ([' '] ++ ['(']
          ++ (cols ++ ([')'] ++ (" VALUES (".data ++ (vals ++ [')'])))))))
      from List.map_append _ _ _]
    rw [hupper]
    exact findSub_of_self_append _ _
  have hafter : (insertOrReplaceQuery table cols vals).drop
      (0 + "INSERT OR REPLACE INTO".data.length)
      = [' '] ++ (table ++ ([' '] ++ ['(']
          ++ (cols ++ ([')'] ++ (" VALUES (".data ++ (vals ++ [')'])))))) := by
    rw [hq, Nat.zero_add, List.drop_left]
  have htabname : Database.tableNameAfter ([' '] ++ (table ++ ([' '] ++ ['(']
      ++ (cols ++ ([')'] ++ (" VALUES (".data ++ (vals ++ [')'])))))))
      = table := by
    have harr : [' '] ++ (table ++ ([' '] ++ ['(']
        ++ (cols ++ ([')'] ++ (" VALUES (".data ++ (vals ++ [')']))))))
        = [' '] ++ (table ++ (' ' :: ('(' :: (cols ++ ([')']
          ++ (" VALUES (".data ++ (vals ++ [')']))))))) := by simp
    rw [harr]
    exact tableNameAfter_spec table _ htne htable
  have hsplitA : insertOrReplaceQuery table cols vals
      = ("INSERT OR REPLACE INTO".data ++ [' '] ++ table ++ [' ']) ++ ('(' ::
         (cols ++ ([')'] ++ (" VALUES (".data ++ (vals ++ [')']))))) := by
    rw [hq]; simp [List.append_assoc]
  have hA : '(' ∉ ("INSERT OR REPLACE INTO".data ++ [' '] ++ table ++ [' ']) := by
    intro h
    simp only [List.mem_append] at h
    rcases h with ((h | h) | h) | h
    · exact absurd h (by decide)
    · exact absurd h (by decide)
    · exact (htable '(' h).2 rfl
    · exact absurd h (by decide)
  have hstart : findSub (insertOrReplaceQuery table cols vals) ['(']
      = some ("INSERT OR REPLACE INTO".data ++ [' '] ++ table ++ [' ']).length := by
    rw [hsplitA]
    exact findSub_single_append _ _ '(' hA
  have hdrop2 : (insertOrReplaceQuery table cols vals).drop
      ("INSERT OR REPLACE INTO".data ++ [' '] ++ table ++ [' ']).length
      = '(' :: (cols ++ ([')'] ++ (" VALUES (".data ++ (vals ++ [')'])))) := by
    rw [hsplitA, List.drop_left]
  have hsplitB : '(' :: (cols ++ ([')'] ++ (" VALUES (".data ++ (vals ++ [')']))))
      = ('(' :: cols) ++ (')' :: (" VALUES (".data ++ (vals ++ [')']))) := by simp
  have hB : ')' ∉ '(' :: cols := by
    intro h
    rcases List.mem_cons.mp h with h | h
    · exact absurd h (by decide)
    · exact hcols ')' h rfl
  have hendfind : findSub ('(' :: (cols ++ ([')'] ++ (" VALUES (".data
      ++ (vals ++ [')']))))) [')'] = some (cols.length + 1) := by
    rw [hsplitB]
    have := findSub_single_append ('(' :: cols)
      (" VALUES (".data ++ (vals ++ [')'])) ')' hB
    simpa using this
  have hcolstr : ((insertOrReplaceQuery table cols vals).take
      ((cols.length + 1) + ("INSERT OR REPLACE INTO".data ++ [' '] ++ table ++ [' ']).length)).drop
      (("INSERT OR REPLACE INTO".data ++ [' '] ++ table ++ [' ']).length + 1)
      = cols := by
    have hsplitC : insertOrReplaceQuery table cols vals
        = ((("INSERT OR REPLACE INTO".data ++ [' '] ++ table ++ [' ']) ++ ['(']) ++ cols)
          ++ (')' :: (" VALUES (".data ++ (vals ++ [')']))) := by
      rw [hq]; simp [List.append_assoc]
    rw [hsplitC]
    rw [List.take_left' (by simp; omega)]
    rw [List.append_assoc]
    rw [List.drop_left' (by simp)]
  have hfind17 : findSub (insertOrReplaceQuery table cols vals)
      "INSERT OR REPLACE".data = some 0 := by
    have hsplit17 : insertOrReplaceQuery table cols vals
        = "INSERT OR REPLACE".data ++ (" INTO ".data ++ (table ++ ([' '] ++ ['(']
          ++ (cols ++ ([')'] ++ (" VALUES (".data ++ (vals ++ [')']))))))) := by
      rw [hq]; simp [List.append_assoc]
    rw [hsplit17]
    exact findSub_of_self_append _ _
  have hreplace : replaceFirst (insertOrReplaceQuery table cols vals)
      "INSERT OR REPLACE".data "INSERT".data
      = "INSERT".data ++ (" INTO ".data ++ (table ++ ([' '] ++ ['(']
          ++ (cols ++ ([')'] ++ (" VALUES (".data ++ (vals ++ [')']))))))) := by
    unfold replaceFirst
    rw [hfind17]
    have hsplit17 : insertOrReplaceQuery table cols vals
        = "INSERT OR REPLACE".data ++ (" INTO ".data ++ (table ++ ([' '] ++ ['(']
          ++ (cols ++ ([')'] ++ (" VALUES (".data ++ (vals ++ [')']))))))) := by
      rw [hq]; simp [List.append_assoc]
    rw [hsplit17]
    simp only [Nat.zero_add, List.take_zero, List.nil_append, List.drop_left]
  have hbase : rstripSet (replaceFirst (insertOrReplaceQuery table cols vals)
      "INSERT OR REPLACE".data "INSERT".data) ";\n ".data
      = "INSERT INTO ".data ++ (table ++ ([' '] ++ ['('] ++ (cols ++ ([')']
          ++ (" VALUES (".data ++ (vals ++ [')'])))))) := by
    rw [hreplace]
    have hx : "INSERT".data ++ (" INTO ".data ++ (table ++ ([' '] ++ ['(']
        ++ (cols ++ ([')'] ++ (" VALUES (".data ++ (vals ++ [')'])))))))
        = ("INSERT INTO ".data ++ (table ++ ([' '] ++ ['('] ++ (cols ++ ([')']
          ++ (" VALUES (".data ++ vals)))))) ++ [')'] := by
      simp [List.append_assoc]
    rw [hx, rstripSet_append_last _ ')' _ (by decide)]
    simp [List.append_assoc]
  simp only [Database.adapt_insert_or_replace]
  rw [hfind]
  simp only [List.drop_zero]
  rw [hafter, htabname, hkey, hstart]
  simp only [Option.map_some', Nat.add_zero]
  rw [hdrop2, hendfind]
  simp only [Option.map_some']
  rw [hcolstr, hparse, hbase]
  simp only [specRewrittenInsertOrReplace]
  by_cases hnk : colNames.filter (fun c => c ≠ key_field) ≠ []
  · simp only [if_pos hnk]
    simp [List.append_assoc]
  · simp only [if_neg hnk]
    simp [List.append_assoc]

/-- Witness for C7 at concrete inputs: the resolver's own upsert for
`issues_root_cause` (update branch) and a key-only column list
(do-nothing branch). -/
theorem adapt_insert_or_replace_spec_witness :
    ("issues_root_cause".data ≠ [] ∧
     (∀ c ∈ "issues_root_cause".data, c.isWhitespace = false ∧ c ≠ '(') ∧
     (∀ c ∈ "issue_id, payload, created_at".data, c ≠ ')') ∧
     Database.get_key_field_for_table "issues_root_cause".data = some "issue_id".data ∧
     ((splitChar "issue_id, payload, created_at".data ',').map stripWs).filter
        (fun c => c ≠ [])
       = ["issue_id".data, "payload".data, "created_at".data]) ∧
    Database.adapt_insert_or_replace
        (insertOrReplaceQuery "issues_root_cause".data
          "issue_id, payload, created_at".data "?, ?, ?".data)
      = specRewrittenInsertOrReplace "issues_root_cause".data
          "issue_id, payload, created_at".data "?, ?, ?".data "issue_id".data
          ["issue_id".data, "payload".data, "created_at".data] ∧
    Database.adapt_insert_or_replace
        (insertOrReplaceQuery "issues_root_cause".data "issue_id".data "?".data)
      = specRewrittenInsertOrReplace "issues_root_cause".data
          "issue_id".data "?".data "issue_id".data ["issue_id".data] :=
  ⟨⟨by decide, by decide, by decide, by decide, by decide⟩,
   adapt_insert_or_replace_spec "issues_root_cause".data
     "issue_id, payload, created_at".data "?, ?, ?".data "issue_id".data
     ["issue_id".data, "payload".data, "created_at".data]
     (by decide) (by decide) (by decide) (by decide) (by decide),
   adapt_insert_or_replace_spec "issues_root_cause".data
     "issue_id".data "?".data "issue_id".data ["issue_id".data]
     (by decide) (by decide) (by decide) (by decide) (by decide)⟩
